import Mathlib

/-!
# clox/warmup.c

A shallow embedding of `src/clox/warmup.c`: the two declared record types
(`Node_t`, `DoubleLinkedList_t`) and the entry point `main`, whose body is the
call `printf("hello, world\n")` followed by `return 0`.

Bytes and C `int`s are plain `Nat` / `Int`; pointers are optional addresses.
The process state is passed explicitly.
-/

namespace Warmup

/-! ## Data model -/

/-- A nullable C pointer: `none` is `NULL`, `some a` is the address `a`. -/
abbrev Ptr := Option Nat

/-- The record `struct Node_t` (warmup.c lines 3-7): two node pointers and a
`char*` payload pointer. -/
structure Node_t where
  prev : Ptr
  next : Ptr
  data : Ptr
  deriving DecidableEq, Repr

/-- The anonymous record typedef'd as `DoubleLinkedList_t` (warmup.c lines
9-12): pointers to the first and the last node. -/
structure DoubleLinkedList_t where
  first : Ptr
  last : Ptr
  deriving DecidableEq, Repr

/-- The objects of the two declared record types that are alive in the
process, each with its address. -/
structure Store where
  nodes : List (Nat × Node_t)
  lists : List (Nat × DoubleLinkedList_t)
  deriving DecidableEq, Repr

/-- The store in which no node and no list exists. -/
def Store.empty : Store := { nodes := [], lists := [] }

/-- The process state `main` runs in: the arguments and environment the process
was started with, the unread bytes of standard input, the bytes written so far
to standard output and to the error stream, and the store of list objects. -/
structure World where
  argv : List (List Nat)
  envp : List (List Nat)
  stdin : List Nat
  stdout : List Nat
  stderr : List Nat
  heap : Store
  deriving DecidableEq, Repr

/-! ## The C library call used by `main` -/

/-- The bytes of a C string literal (without the terminating NUL). -/
def cstr (s : String) : List Nat := s.toList.map Char.toNat

/-- Expansion of a `printf` format when the call passes no variadic argument:
ordinary bytes are copied, `%%` yields one `%` (byte 37), and any other
conversion specification has no argument to consume, which is reported as
`none`. -/
def formatNoArgs : List Nat → Option (List Nat)
  | [] => some []
  | c :: rest =>
    if c = 37 then
      match rest with
      | [] => none
      | d :: rest2 =>
        if d = 37 then (formatNoArgs rest2).map (List.cons 37) else none
    else (formatNoArgs rest).map (List.cons c)

/-- The call `printf(fmt)` with a format only: the expanded bytes are appended
to standard output and their number is returned; a format that cannot be
expanded writes nothing and returns a negative value. -/
def printf (fmt : List Nat) (w : World) : World × Int :=
  match formatNoArgs fmt with
  | some out => ({ w with stdout := w.stdout ++ out }, (out.length : Int))
  | none => (w, -1)

/-! ## The program -/

/-- The string literal on line 15 of warmup.c. -/
def helloFmt : String := "hello, world\n"

/-- The function `main` (warmup.c lines 14-18): it takes no parameter, calls
`printf("hello, world\n")`, discards the value `printf` returns, and returns 0.
The result is the final process state and the exit status. -/
def main (w : World) : World × Int :=
  let w1 := (printf (cstr helloFmt) w).1
  (w1, 0)

/-! ## Statement-level execution of `main` -/

/-- Control points of `main`: before the `printf` statement (line 15), before
the `return` statement (line 17), and after `main` has returned a status. -/
inductive Pc where
  | atPrintf
  | atReturn
  | exited (status : Int)
  deriving DecidableEq, Repr

/-- A configuration of the running program. -/
structure Config where
  world : World
  pc : Pc
  deriving DecidableEq, Repr

/-- The configuration in which `main` is entered. -/
def Config.start (w : World) : Config := { world := w, pc := Pc.atPrintf }

/-- One statement of `main`; `none` once `main` has returned. -/
def step (c : Config) : Option Config :=
  match c.pc with
  | Pc.atPrintf => some { world := (printf (cstr helloFmt) c.world).1, pc := Pc.atReturn }
  | Pc.atReturn => some { world := c.world, pc := Pc.exited 0 }
  | Pc.exited _ => none

/-- Execute at most `fuel` statements, stopping early when `main` has
returned. -/
def run : Nat → Config → Config
  | 0, c => c
  | fuel + 1, c =>
    match step c with
    | some c1 => run fuel c1
    | none => c

/-- The bytes a run of `main` started in `w` adds to standard output: what
stands in the final output after the bytes that were already there. -/
def written (w : World) : List Nat := (main w).1.stdout.drop w.stdout.length

/-- The 13 bytes of `hello, world` followed by a line feed. -/
def helloBytes : List Nat :=
  [104, 101, 108, 108, 111, 44, 32, 119, 111, 114, 108, 100, 10]

/-- A process started without arguments or environment, with nothing on standard
input, nothing written yet, and no list object. -/
def World.blank : World :=
  { argv := [], envp := [], stdin := [], stdout := [], stderr := [], heap := Store.empty }

/-! ## Basic facts -/

theorem cstr_helloFmt : cstr helloFmt = helloBytes := by decide

theorem formatNoArgs_helloBytes : formatNoArgs helloBytes = some helloBytes := by decide

theorem printf_hello (w : World) :
    printf (cstr helloFmt) w
      = ({ w with stdout := w.stdout ++ helloBytes }, (13 : Int)) := by
  rw [cstr_helloFmt]
  simp only [printf, formatNoArgs_helloBytes]
  rfl

theorem main_eq (w : World) :
    main w = ({ w with stdout := w.stdout ++ helloBytes }, 0) := by
  simp only [main, printf_hello]

theorem written_eq (w : World) : written w = helloBytes := by
  simp [written, main_eq]

theorem run_two_start (w : World) :
    run 2 (Config.start w)
      = { world := { w with stdout := w.stdout ++ helloBytes }, pc := Pc.exited 0 } := by
  simp only [run, step, Config.start, printf_hello]

/-! ## The claims -/

/-- C1: started with empty standard output and an empty error stream, `main`
ends with standard output equal to exactly the 13 bytes of `hello, world`
followed by one line feed (byte 10), with no carriage return (byte 13) in it, and
with the error stream still empty. -/
theorem main_prints_hello_world (w : World) (hout : w.stdout = []) (herr : w.stderr = []) :
    (main w).1.stdout = [104, 101, 108, 108, 111, 44, 32, 119, 111, 114, 108, 100, 10]
      ∧ (main w).1.stdout = cstr "hello, world" ++ [10]
      ∧ (main w).1.stdout.length = 13
      ∧ 13 ∉ (main w).1.stdout
      ∧ (main w).1.stderr = [] := by
  have h : (main w).1.stdout = helloBytes := by simp [main_eq, hout]
  refine ⟨h, ?_, ?_, ?_, ?_⟩
  · rw [h]; decide
  · rw [h]; rfl
  · rw [h]; decide
  · simp [main_eq, herr]

/-- Witness of C1 at the blank process state. -/
theorem main_prints_hello_world_witness :
    World.blank.stdout = [] ∧ World.blank.stderr = []
      ∧ (main World.blank).1.stdout
          = [104, 101, 108, 108, 111, 44, 32, 119, 111, 114, 108, 100, 10]
      ∧ (main World.blank).1.stdout = cstr "hello, world" ++ [10]
      ∧ (main World.blank).1.stdout.length = 13
      ∧ 13 ∉ (main World.blank).1.stdout
      ∧ (main World.blank).1.stderr = [] :=
  ⟨rfl, rfl, main_prints_hello_world World.blank rfl rfl⟩

/-- C2: for every initial process state (arguments, environment, streams, store)
the status `main` returns is 0, and the statement-level execution of `main` ends
at the control point "exited with status 0". -/
theorem main_exit_status_zero (w : World) :
    (main w).2 = 0 ∧ (run 2 (Config.start w)).pc = Pc.exited 0 := by
  refine ⟨rfl, ?_⟩
  rw [run_two_start]

/-- C3: for any two runs of `main`, whatever the arguments, environment, standard
input (and every other part of the state) of each, the bytes written to standard
output are the same and the exit statuses are the same; the bytes written are
what each run appends to the output that was already there. -/
theorem main_deterministic_input_independent (w₁ w₂ : World) :
    written w₁ = written w₂
      ∧ (main w₁).2 = (main w₂).2
      ∧ (main w₁).1.stdout = w₁.stdout ++ written w₁
      ∧ (main w₂).1.stdout = w₂.stdout ++ written w₂ := by
  refine ⟨?_, rfl, ?_, ?_⟩
  · rw [written_eq, written_eq]
  · rw [written_eq]; simp [main_eq]
  · rw [written_eq]; simp [main_eq]

/-- C4: the final state of `main` is the state after its one `printf` call, and
it differs from the initial state only in that one line has been appended to
standard output: the appended bytes contain exactly one line feed, which is their
last byte; standard input, the error stream, the arguments, the environment and
the store are unchanged. -/
theorem main_only_appends_one_line (w : World) :
    (main w).1 = (printf (cstr helloFmt) w).1
      ∧ ∃ line : List Nat,
          (main w).1 = { w with stdout := w.stdout ++ line }
            ∧ line.count 10 = 1
            ∧ line.getLast? = some 10
            ∧ (main w).1.stdin = w.stdin
            ∧ (main w).1.stderr = w.stderr
            ∧ (main w).1.argv = w.argv
            ∧ (main w).1.envp = w.envp
            ∧ (main w).1.heap = w.heap := by
  refine ⟨rfl, helloBytes, ?_, by decide, by decide, ?_, ?_, ?_, ?_, ?_⟩ <;> simp [main_eq]

/-- C5: `main` terminates on every execution: from its entry, two statements
(the `printf` call, then the `return`) reach the exited control point with the
state and status that `main` computes; no further statement exists there, so
more fuel changes nothing; and after the first statement, the single output
operation, only the `return` remains. -/
theorem main_terminates (w : World) :
    run 2 (Config.start w) = { world := (main w).1, pc := Pc.exited (main w).2 }
      ∧ step (run 2 (Config.start w)) = none
      ∧ (∀ n : Nat, run (2 + n) (Config.start w) = run 2 (Config.start w))
      ∧ run 1 (Config.start w)
          = { world := (printf (cstr helloFmt) w).1, pc := Pc.atReturn } := by
  refine ⟨?_, ?_, ?_, rfl⟩
  · rw [run_two_start, main_eq]
  · rw [run_two_start]; rfl
  · intro n
    rw [run_two_start]
    cases n with
    | zero => exact run_two_start w
    | succ k =>
      have h : 2 + (k + 1) = (k + 1) + 1 + 1 := by omega
      rw [h]
      simp only [run, step, Config.start, printf_hello]

/-- C6: over a state that includes a store of nodes and lists, `main` leaves the
store exactly as it was (started with the empty store, the store is still empty
when `main` returns), and neither the bytes `main` writes, nor its final
standard output, nor its exit status depend on the store. -/
theorem main_leaves_store_untouched (w : World) (s : Store) :
    (main w).1.heap = w.heap
      ∧ (main { w with heap := Store.empty }).1.heap = Store.empty
      ∧ written { w with heap := s } = written w
      ∧ (main { w with heap := s }).1.stdout = (main w).1.stdout
      ∧ (main { w with heap := s }).2 = (main w).2 := by
  refine ⟨?_, ?_, ?_, ?_, rfl⟩
  · simp [main_eq]
  · simp [main_eq]
  · rw [written_eq, written_eq]
  · simp [main_eq]

end Warmup
